import Mathlib

/-!
# Verification of the RataTuiJoystickTest gimbal core

Shallow embedding of the repository's control mapper (`src/gimbal.rs`,
`src/config.rs`) and kinematic solver / isometric projector
(`src/main.rs`, `draw_gimbal_visualization`).

The mapper manipulates `f64`/`f32` values only through addition,
multiplication, negation, comparison and clamping, so it is embedded over
`ℚ` (exact, executable). The solver and projector use trigonometric
functions and are embedded over `ℝ`.
-/

namespace Gimbal

/-- The `gilrs::Axis` identifiers that occur in the program
(`config.rs` recognizes the eight named ones; `Unknown` stands for any
other device-reported axis). -/
inductive Axis where
  | leftStickX
  | leftStickY
  | leftZ
  | rightStickX
  | rightStickY
  | rightZ
  | dPadX
  | dPadY
  | unknown
  deriving DecidableEq, Repr, Fintype

/-- `GimbalConfig` from `config.rs`. -/
structure GimbalConfig where
  max_pitch : ℚ
  max_roll : ℚ
  max_lift : ℚ
  pitch_sensitivity : ℚ
  roll_sensitivity : ℚ
  lift_sensitivity : ℚ
  deriving DecidableEq, Repr

/-- `JoystickConfig` from `config.rs`. -/
structure JoystickConfig where
  enabled : Bool
  pitch_axis : String
  roll_axis : String
  lift_axis : String
  invert_pitch : Bool
  invert_roll : Bool
  invert_lift : Bool
  fallback_axes : List String
  deriving DecidableEq, Repr

/-- `ControlsConfig` from `config.rs`. -/
structure ControlsConfig where
  keyboard_enabled : Bool
  keyboard_step : ℚ
  joystick : JoystickConfig
  deriving DecidableEq, Repr

/-- `DebugConfig` from `config.rs` (only `log_input_values` is read by the
mapper, and it only gates a print). -/
structure DebugConfig where
  enabled : Bool
  show_all_axes : Bool
  show_button_states : Bool
  log_input_values : Bool
  deriving DecidableEq, Repr

/-- `Config` from `config.rs`. -/
structure Config where
  gimbal : GimbalConfig
  controls : ControlsConfig
  debug : DebugConfig
  deriving DecidableEq, Repr

/-- `GimbalState` from `gimbal.rs`: pitch (deg), roll (deg), lift (mm). -/
structure GimbalState where
  pitch : ℚ
  roll : ℚ
  lift : ℚ
  deriving DecidableEq, Repr

/-- `GimbalState::default()`: all channels zero. -/
def GimbalState.default : GimbalState := ⟨0, 0, 0⟩

/-- `InputState` from `gimbal.rs`. The `axes` HashMap is embedded as a
partial function from axis identifiers to values; buttons are not
consumed by the mapper and are omitted. -/
structure InputState where
  axes : Axis → Option ℚ
  keyboard_pitch : ℚ
  keyboard_roll : ℚ
  keyboard_lift : ℚ

/-- `GimbalController` from `gimbal.rs`: a config plus the current state. -/
structure GimbalController where
  config : Config
  state : GimbalState

/-- `GimbalController::new`. -/
def GimbalController.new (config : Config) : GimbalController :=
  ⟨config, GimbalState.default⟩

/-- `parse_axis_name` from `config.rs`: the eight recognized axis-name
strings map to their `gilrs::Axis`; anything else is `None`. -/
def parse_axis_name (name : String) : Option Axis :=
  if name = "LeftStickX" then some .leftStickX
  else if name = "LeftStickY" then some .leftStickY
  else if name = "LeftZ" then some .leftZ
  else if name = "RightStickX" then some .rightStickX
  else if name = "RightStickY" then some .rightStickY
  else if name = "RightZ" then some .rightZ
  else if name = "DPadX" then some .dPadX
  else if name = "DPadY" then some .dPadY
  else none

/-- The axis-name strings `parse_axis_name` recognizes. -/
def recognizedAxisNames : List String :=
  ["LeftStickX", "LeftStickY", "LeftZ", "RightStickX",
   "RightStickY", "RightZ", "DPadX", "DPadY"]

/-- The fallback loop of `GimbalController::get_joystick_axis_value`
(`gimbal.rs` lines 107-118): scan the configured fallback names in order;
a name that resolves to a present axis whose absolute value exceeds 0.01
yields that value; otherwise continue; exhausting the list yields 0. -/
def fallbackScan (input : InputState) : List String → ℚ
  | [] => 0
  | fallback_name :: rest =>
    match parse_axis_name fallback_name with
    | some a =>
      match input.axes a with
      | some value =>
        if 1/100 < |value| then value else fallbackScan input rest
      | none => fallbackScan input rest
    | none => fallbackScan input rest

/-- `GimbalController::get_joystick_axis_value` (`gimbal.rs` lines
99-119): if the primary axis name resolves and the axis is present in the
samples, return its value (no threshold); otherwise scan the fallbacks. -/
def get_joystick_axis_value (config : Config) (input : InputState)
    (axis_name : String) : ℚ :=
  match parse_axis_name axis_name with
  | some a =>
    match input.axes a with
    | some value => value
    | none => fallbackScan input config.controls.joystick.fallback_axes
  | none => fallbackScan input config.controls.joystick.fallback_axes

/-- Rust's `f64::clamp(lo, hi)` for `lo ≤ hi`. -/
def rustClamp (v lo hi : ℚ) : ℚ := max lo (min v hi)

/-- `GimbalController::update` (`gimbal.rs` lines 56-97): sum the
joystick contribution (with per-channel inversion) and the keyboard
contribution, scale by sensitivity and max authority, clamp to
`[-max, +max]`, and overwrite the state. The config is not modified. -/
def GimbalController.update (c : GimbalController) (input : InputState) :
    GimbalController :=
  let jcfg := c.config.controls.joystick
  let pitch :=
    (if jcfg.enabled then
      get_joystick_axis_value c.config input jcfg.pitch_axis *
        (if jcfg.invert_pitch then -1 else 1)
     else 0) +
    (if c.config.controls.keyboard_enabled then input.keyboard_pitch else 0)
  let roll :=
    (if jcfg.enabled then
      get_joystick_axis_value c.config input jcfg.roll_axis *
        (if jcfg.invert_roll then -1 else 1)
     else 0) +
    (if c.config.controls.keyboard_enabled then input.keyboard_roll else 0)
  let lift :=
    (if jcfg.enabled then
      get_joystick_axis_value c.config input jcfg.lift_axis *
        (if jcfg.invert_lift then -1 else 1)
     else 0) +
    (if c.config.controls.keyboard_enabled then input.keyboard_lift else 0)
  { config := c.config
    state :=
      { pitch := rustClamp (pitch * c.config.gimbal.pitch_sensitivity *
          c.config.gimbal.max_pitch)
          (-c.config.gimbal.max_pitch) c.config.gimbal.max_pitch
        roll := rustClamp (roll * c.config.gimbal.roll_sensitivity *
          c.config.gimbal.max_roll)
          (-c.config.gimbal.max_roll) c.config.gimbal.max_roll
        lift := rustClamp (lift * c.config.gimbal.lift_sensitivity *
          c.config.gimbal.max_lift)
          (-c.config.gimbal.max_lift) c.config.gimbal.max_lift } }

/-- `GimbalController::reset` (`gimbal.rs` lines 139-141). -/
def GimbalController.reset (c : GimbalController) : GimbalController :=
  { c with state := GimbalState.default }

/-- `GimbalController::get_state`. -/
def GimbalController.get_state (c : GimbalController) : GimbalState :=
  c.state

/-- `GimbalController.get_config`. -/
def GimbalController.get_config (c : GimbalController) : Config :=
  c.config

/-- `Config::default()` from `config.rs` lines 50-90. -/
def Config.defaultConfig : Config :=
  { gimbal :=
      { max_pitch := 20
        max_roll := 20
        max_lift := 15
        pitch_sensitivity := 1
        roll_sensitivity := 1
        lift_sensitivity := 1 }
    controls :=
      { keyboard_enabled := true
        keyboard_step := 1/10
        joystick :=
          { enabled := true
            pitch_axis := "RightStickY"
            roll_axis := "RightStickX"
            lift_axis := "RightZ"
            invert_pitch := false
            invert_roll := false
            invert_lift := false
            fallback_axes :=
              ["LeftStickY", "LeftStickX", "LeftZ", "Tz", "Ty", "Tx"] } }
    debug :=
      { enabled := false
        show_all_axes := true
        show_button_states := true
        log_input_values := false } }

/-- `InputState::default()` from `gimbal.rs` lines 31-41: empty axis map,
zero keyboard contributions. -/
def InputState.empty : InputState :=
  { axes := fun _ => none
    keyboard_pitch := 0
    keyboard_roll := 0
    keyboard_lift := 0 }

/-- Specification-side reading of §4.1 step 2 of the spec: take the
values of the fallback axes that resolve and are present, in configured
order, and return the first whose absolute value exceeds 0.01;
if none qualifies, return 0. -/
def specFirstSignificantFallback (input : InputState)
    (names : List String) : ℚ :=
  ((names.filterMap fun n => (parse_axis_name n).bind input.axes).find?
    fun v => decide ((1:ℚ)/100 < |v|)).getD 0

/-- A concrete sample set: the default primary pitch axis `RightStickY`
is present with the sub-threshold value 1/200 = 0.005, and the fallback
axis `LeftStickY` is present with the significant value 9/10. -/
def inputPrimarySmall : InputState :=
  { axes := fun a =>
      match a with
      | .rightStickY => some (1/200)
      | .leftStickY => some (9/10)
      | _ => none
    keyboard_pitch := 0
    keyboard_roll := 0
    keyboard_lift := 0 }

/-- A concrete sample set: the default primary pitch axis `RightStickY`
is absent, the first fallback `LeftStickY` holds the insignificant value
1/200, and the second fallback `LeftStickX` holds 3/4. -/
def inputFallbackSecond : InputState :=
  { axes := fun a =>
      match a with
      | .leftStickY => some (1/200)
      | .leftStickX => some (3/4)
      | _ => none
    keyboard_pitch := 0
    keyboard_roll := 0
    keyboard_lift := 0 }

end Gimbal

namespace Solver

noncomputable section

/-- `platform_radius` from `draw_gimbal_visualization` (`main.rs` line 267). -/
def platform_radius : ℝ := 100

/-- `nominal_height = 15.0 + base_lift` (`main.rs` line 269). -/
def nominal_height (base_lift : ℝ) : ℝ := 15 + base_lift

/-- `to_radians` on an angle in degrees, as Rust's `f64::to_radians`. -/
def toRadians (deg : ℝ) : ℝ := deg * (Real.pi / 180)

/-- The three scissor-lift angular positions in degrees
(`main.rs` lines 325-329): 0°, 120°, 240°. -/
def scissorAngleDeg (i : Fin 3) : ℝ := 120 * (i : ℕ)

/-- The scissor lifts sit at radius `platform_radius * 0.75`
(`main.rs` lines 326-328). -/
def scissorRadius : ℝ := platform_radius * 0.75

/-- `base_x_3d = radius * angle_rad.cos()` (`main.rs` line 337). -/
def actuatorBaseX (i : Fin 3) : ℝ :=
  scissorRadius * Real.cos (toRadians (scissorAngleDeg i))

/-- `base_y_3d = radius * angle_rad.sin()` (`main.rs` line 338). -/
def actuatorBaseY (i : Fin 3) : ℝ :=
  scissorRadius * Real.sin (toRadians (scissorAngleDeg i))

/-- `pitch_effect = (y / platform_radius) * pitch_angle.to_radians() *
platform_radius * 0.5` (`main.rs` lines 342, 616, 620). -/
def pitchEffect (pitch_angle y : ℝ) : ℝ :=
  (y / platform_radius) * toRadians pitch_angle * platform_radius * 0.5

/-- `roll_effect = (x / platform_radius) * roll_angle.to_radians() *
platform_radius * 0.5` (`main.rs` lines 343, 617, 621). -/
def rollEffect (roll_angle x : ℝ) : ℝ :=
  (x / platform_radius) * toRadians roll_angle * platform_radius * 0.5

/-- `scissor_height_3d = nominal_height + pitch_effect + roll_effect`
(`main.rs` line 346): the extension height of actuator `i` for demand
`(pitch, roll, lift)`. -/
def scissorHeight (pitch roll lift : ℝ) (i : Fin 3) : ℝ :=
  nominal_height lift + pitchEffect pitch (actuatorBaseY i) +
    rollEffect roll (actuatorBaseX i)

/-- `avg_height`: the mean of the three stored actuator heights
(`main.rs` line 601). -/
def avgHeight (pitch roll lift : ℝ) : ℝ :=
  (scissorHeight pitch roll lift 0 + scissorHeight pitch roll lift 1 +
    scissorHeight pitch roll lift 2) / 3

/-- The upper plate perimeter is sampled at radius
`platform_radius * 0.9` (`main.rs` lines 610-613). -/
def perimeterRadius : ℝ := platform_radius * 0.9

/-- The perimeter vertex height at circumferential angle `angle`
(radians): `avg_height + pitch_effect + roll_effect` with the sample
point `(0.9R·cos angle, 0.9R·sin angle)` (`main.rs` lines 610-622). -/
def perimeterHeight (pitch roll lift : ℝ) (angle : ℝ) : ℝ :=
  avgHeight pitch roll lift +
    pitchEffect pitch (perimeterRadius * Real.sin angle) +
    rollEffect roll (perimeterRadius * Real.cos angle)

/-- `to_isometric` (`main.rs` lines 272-277): the isometric projector.
The second argument is the height; the code multiplies by the literals
`0.866` and `0.5`. -/
def to_isometric (x y z : ℝ) : ℝ × ℝ :=
  ((x - z) * 0.866, (x + z) * 0.5 + y)

end

end Solver

/-! ## Helper lemmas about the control mapper -/

namespace Gimbal

theorem get_joystick_axis_value_of_parse_none {axis_name : String}
    (config : Config) (input : InputState)
    (h : parse_axis_name axis_name = none) :
    get_joystick_axis_value config input axis_name =
      fallbackScan input config.controls.joystick.fallback_axes := by
  unfold get_joystick_axis_value
  rw [h]

theorem get_joystick_axis_value_of_absent {axis_name : String} {a : Axis}
    (config : Config) (input : InputState)
    (h1 : parse_axis_name axis_name = some a) (h2 : input.axes a = none) :
    get_joystick_axis_value config input axis_name =
      fallbackScan input config.controls.joystick.fallback_axes := by
  unfold get_joystick_axis_value
  rw [h1]
  simp only [h2]

theorem get_joystick_axis_value_of_present {axis_name : String} {a : Axis}
    {v : ℚ} (config : Config) (input : InputState)
    (h1 : parse_axis_name axis_name = some a) (h2 : input.axes a = some v) :
    get_joystick_axis_value config input axis_name = v := by
  unfold get_joystick_axis_value
  rw [h1]
  simp only [h2]

theorem fallbackScan_cons_significant {n : String} {a : Axis} {v : ℚ}
    (input : InputState) (rest : List String)
    (h1 : parse_axis_name n = some a) (h2 : input.axes a = some v)
    (h3 : (1:ℚ)/100 < |v|) :
    fallbackScan input (n :: rest) = v := by
  unfold fallbackScan
  rw [h1]
  simp only [h2]
  rw [if_pos h3]

theorem fallbackScan_cons_insignificant {n : String} {a : Axis} {v : ℚ}
    (input : InputState) (rest : List String)
    (h1 : parse_axis_name n = some a) (h2 : input.axes a = some v)
    (h3 : ¬ (1:ℚ)/100 < |v|) :
    fallbackScan input (n :: rest) = fallbackScan input rest := by
  simp only [fallbackScan]
  rw [h1]
  simp only [h2]
  rw [if_neg h3]

theorem spec_cons_of_unresolved {n : String} (input : InputState)
    (rest : List String) (h : (parse_axis_name n).bind input.axes = none) :
    specFirstSignificantFallback input (n :: rest) =
      specFirstSignificantFallback input rest := by
  unfold specFirstSignificantFallback
  rw [List.filterMap_cons_none
    (f := fun n => (parse_axis_name n).bind input.axes) h]

theorem spec_cons_of_value {n : String} {v : ℚ} (input : InputState)
    (rest : List String) (h : (parse_axis_name n).bind input.axes = some v) :
    specFirstSignificantFallback input (n :: rest) =
      if (1:ℚ)/100 < |v| then v
      else specFirstSignificantFallback input rest := by
  unfold specFirstSignificantFallback
  rw [List.filterMap_cons_some
    (f := fun n => (parse_axis_name n).bind input.axes) h]
  by_cases ht : (1:ℚ)/100 < |v|
  · rw [List.find?_cons_of_pos _ (by simpa using ht), if_pos ht,
      Option.getD_some]
  · rw [List.find?_cons_of_neg _ (by simpa using ht), if_neg ht]

theorem fallbackScan_eq_spec (input : InputState) (names : List String) :
    fallbackScan input names = specFirstSignificantFallback input names := by
  induction names with
  | nil => rfl
  | cons n rest ih =>
    unfold fallbackScan
    rcases hp : parse_axis_name n with _ | a
    · rw [spec_cons_of_unresolved input rest (by rw [hp]; rfl)]
      exact ih
    · rcases hv : input.axes a with _ | v
      · rw [spec_cons_of_unresolved input rest (by rw [hp]; exact hv)]
        simp only [hv]
        exact ih
      · rw [spec_cons_of_value input rest (by rw [hp]; exact hv)]
        simp only [hv]
        by_cases ht : (1:ℚ)/100 < |v|
        · rw [if_pos ht, if_pos ht]
        · rw [if_neg ht, if_neg ht]
          exact ih

theorem parse_axis_name_eq_none_of_unrecognized {name : String}
    (h : name ∉ recognizedAxisNames) : parse_axis_name name = none := by
  unfold parse_axis_name
  split_ifs with h1 h2 h3 h4 h5 h6 h7 h8 <;>
    first
      | rfl
      | (exfalso; apply h; simp [recognizedAxisNames, *])

theorem abs_rustClamp_le {m : ℚ} (v : ℚ) (hm : 0 ≤ m) :
    |rustClamp v (-m) m| ≤ m := by
  rw [abs_le]
  refine ⟨le_max_left _ _, max_le (by linarith) ?_⟩
  exact le_trans (min_le_right v m) le_rfl

/-! ## Claims about the control mapper -/

/-- Claim C1: for every configuration whose max-authority and sensitivity
values are non-negative (all `ℚ` values are finite) and every input
state, after `update` the resulting state satisfies
`|pitch| ≤ max_pitch`, `|roll| ≤ max_roll` and `|lift| ≤ max_lift`. -/
theorem C1_update_output_clamped (c : GimbalController) (input : InputState)
    (hmp : 0 ≤ c.config.gimbal.max_pitch)
    (hmr : 0 ≤ c.config.gimbal.max_roll)
    (hml : 0 ≤ c.config.gimbal.max_lift)
    (hsp : 0 ≤ c.config.gimbal.pitch_sensitivity)
    (hsr : 0 ≤ c.config.gimbal.roll_sensitivity)
    (hsl : 0 ≤ c.config.gimbal.lift_sensitivity) :
    |(c.update input).state.pitch| ≤ c.config.gimbal.max_pitch ∧
    |(c.update input).state.roll| ≤ c.config.gimbal.max_roll ∧
    |(c.update input).state.lift| ≤ c.config.gimbal.max_lift :=
  ⟨abs_rustClamp_le _ hmp, abs_rustClamp_le _ hmr, abs_rustClamp_le _ hml⟩

/-- Witness for C1 at the default configuration and the empty input. -/
theorem C1_update_output_clamped_witness :
    0 ≤ Config.defaultConfig.gimbal.max_pitch ∧
    0 ≤ Config.defaultConfig.gimbal.max_roll ∧
    0 ≤ Config.defaultConfig.gimbal.max_lift ∧
    0 ≤ Config.defaultConfig.gimbal.pitch_sensitivity ∧
    0 ≤ Config.defaultConfig.gimbal.roll_sensitivity ∧
    0 ≤ Config.defaultConfig.gimbal.lift_sensitivity ∧
    (|((GimbalController.new Config.defaultConfig).update
        InputState.empty).state.pitch| ≤
      Config.defaultConfig.gimbal.max_pitch ∧
    |((GimbalController.new Config.defaultConfig).update
        InputState.empty).state.roll| ≤
      Config.defaultConfig.gimbal.max_roll ∧
    |((GimbalController.new Config.defaultConfig).update
        InputState.empty).state.lift| ≤
      Config.defaultConfig.gimbal.max_lift) :=
  ⟨by decide, by decide, by decide, by decide, by decide, by decide,
    C1_update_output_clamped (GimbalController.new Config.defaultConfig)
      InputState.empty (by decide) (by decide) (by decide) (by decide)
      (by decide) (by decide)⟩

/-- Counterexample to claim C3 as stated: with the default configuration,
the primary pitch axis `RightStickY` present at the sub-threshold value
1/200 ≤ 0.01 determines the contribution by itself (the mapper returns
1/200), even though the fallback scan would have yielded 9/10. -/
theorem C3_counterexample :
    get_joystick_axis_value Config.defaultConfig inputPrimarySmall
      "RightStickY" = 1/200 ∧
    |(1:ℚ)/200| ≤ 1/100 ∧
    fallbackScan inputPrimarySmall
      Config.defaultConfig.controls.joystick.fallback_axes = 9/10 ∧
    ((1:ℚ)/200) ≠ 9/10 := by
  refine ⟨?_, by rw [abs_le]; norm_num, ?_, by norm_num⟩
  · exact get_joystick_axis_value_of_present _ _
      (show parse_axis_name "RightStickY" = some Axis.rightStickY by decide)
      rfl
  · show fallbackScan inputPrimarySmall ("LeftStickY" ::
      ["LeftStickX", "LeftZ", "Tz", "Ty", "Tx"]) = 9/10
    exact fallbackScan_cons_significant _ _
      (show parse_axis_name "LeftStickY" = some Axis.leftStickY by decide)
      rfl
      (by rw [abs_of_pos (by norm_num : (0:ℚ) < 9/10)]; norm_num)

/-- Claim C3 (amended): the fallback axis list is consulted only when the
channel's primary axis fails to resolve or is absent from the input
samples; a primary axis that is present determines the channel's
joystick contribution regardless of magnitude — no 0.01 significance
threshold applies to the primary. -/
theorem C3_present_primary_determines {axis_name : String} {a : Axis}
    {v : ℚ} (config : Config) (input : InputState)
    (h1 : parse_axis_name axis_name = some a)
    (h2 : input.axes a = some v) :
    get_joystick_axis_value config input axis_name = v :=
  get_joystick_axis_value_of_present config input h1 h2

/-- Witness for the amended C3 at a sub-threshold primary value. -/
theorem C3_present_primary_determines_witness :
    parse_axis_name "RightStickY" = some Axis.rightStickY ∧
    inputPrimarySmall.axes Axis.rightStickY = some (1/200) ∧
    get_joystick_axis_value Config.defaultConfig inputPrimarySmall
      "RightStickY" = 1/200 :=
  ⟨by decide, rfl,
    C3_present_primary_determines Config.defaultConfig inputPrimarySmall
      (show parse_axis_name "RightStickY" = some Axis.rightStickY by decide)
      rfl⟩

/-- Claim C5: when the channel's primary axis is absent from the input
samples, the mapper returns the value of the first fallback axis, in
configured order, that resolves, is present and whose absolute value
exceeds 0.01; sub-threshold fallbacks are skipped even if earlier in the
list; if no fallback qualifies the contribution is 0
(`specFirstSignificantFallback` is that specification, stated with
`List.filterMap`/`List.find?`). -/
theorem C5_absent_primary_first_significant_fallback (config : Config)
    (input : InputState) (axis_name : String)
    (h : ∀ a, parse_axis_name axis_name = some a → input.axes a = none) :
    get_joystick_axis_value config input axis_name =
      specFirstSignificantFallback input
        config.controls.joystick.fallback_axes := by
  rcases hp : parse_axis_name axis_name with _ | a
  · rw [get_joystick_axis_value_of_parse_none config input hp]
    exact fallbackScan_eq_spec input _
  · rw [get_joystick_axis_value_of_absent config input hp (h a hp)]
    exact fallbackScan_eq_spec input _

/-- Witness for C5: primary absent, first fallback insignificant (1/200),
second fallback significant (3/4) — the mapper selects the second. -/
theorem C5_absent_primary_first_significant_fallback_witness :
    (∀ a, parse_axis_name "RightStickY" = some a →
      inputFallbackSecond.axes a = none) ∧
    get_joystick_axis_value Config.defaultConfig inputFallbackSecond
      "RightStickY" =
      specFirstSignificantFallback inputFallbackSecond
        Config.defaultConfig.controls.joystick.fallback_axes ∧
    specFirstSignificantFallback inputFallbackSecond
      Config.defaultConfig.controls.joystick.fallback_axes = 3/4 :=
  ⟨by decide,
    C5_absent_primary_first_significant_fallback Config.defaultConfig
      inputFallbackSecond "RightStickY" (by decide),
    by
      rw [← fallbackScan_eq_spec]
      show fallbackScan inputFallbackSecond ("LeftStickY" :: "LeftStickX" ::
        ["LeftZ", "Tz", "Ty", "Tx"]) = 3/4
      rw [fallbackScan_cons_insignificant _ _
        (show parse_axis_name "LeftStickY" = some Axis.leftStickY by decide)
        rfl
        (by rw [abs_of_pos (by norm_num : (0:ℚ) < 1/200)]; norm_num)]
      exact fallbackScan_cons_significant _ _
        (show parse_axis_name "LeftStickX" = some Axis.leftStickX by decide)
        rfl
        (by rw [abs_of_pos (by norm_num : (0:ℚ) < 3/4)]; norm_num)⟩

/-- Claim C8: an axis-name string that is not one of the eight
recognized identifiers is treated as absent: `parse_axis_name` returns
`none`, a channel configured with it falls through to the fallback scan,
and an unrecognized fallback entry is skipped; all functions are total,
so no panic can arise. -/
theorem C8_unrecognized_name_treated_as_absent {name : String}
    (h : name ∉ recognizedAxisNames) :
    parse_axis_name name = none ∧
    (∀ config input, get_joystick_axis_value config input name =
      fallbackScan input config.controls.joystick.fallback_axes) ∧
    (∀ input rest, fallbackScan input (name :: rest) =
      fallbackScan input rest) := by
  have hn := parse_axis_name_eq_none_of_unrecognized h
  refine ⟨hn,
    fun config input => get_joystick_axis_value_of_parse_none config input hn,
    fun input rest => ?_⟩
  simp only [fallbackScan, hn]

/-- Witness for C8 at the unrecognized name `Tz` (a 3D-motion axis name
that appears in the default fallback list but is not recognized). -/
theorem C8_unrecognized_name_treated_as_absent_witness :
    "Tz" ∉ recognizedAxisNames ∧
    (parse_axis_name "Tz" = none ∧
    (∀ config input, get_joystick_axis_value config input "Tz" =
      fallbackScan input config.controls.joystick.fallback_axes) ∧
    (∀ input rest, fallbackScan input ("Tz" :: rest) =
      fallbackScan input rest)) :=
  ⟨by decide, C8_unrecognized_name_treated_as_absent (by decide)⟩

/-- Claim C9: `update` is a deterministic function of the configuration
and the passed-in input — two controllers with equal configs but
arbitrary different prior states end up identical after one `update` —
and the solver's height computations are pure functions of the demand,
so evaluating them twice yields identical outputs. -/
theorem C9_update_and_solver_deterministic (c₁ c₂ : GimbalController)
    (input : InputState) (h : c₁.config = c₂.config) :
    c₁.update input = c₂.update input ∧
    (∀ pitch roll lift i, Solver.scissorHeight pitch roll lift i =
      Solver.scissorHeight pitch roll lift i) ∧
    (∀ pitch roll lift angle, Solver.perimeterHeight pitch roll lift angle =
      Solver.perimeterHeight pitch roll lift angle) := by
  obtain ⟨cfg₁, s₁⟩ := c₁
  obtain ⟨cfg₂, s₂⟩ := c₂
  cases h
  exact ⟨rfl, fun _ _ _ _ => rfl, fun _ _ _ _ => rfl⟩

/-- Witness for C9: equal default configs, different prior states. -/
theorem C9_update_and_solver_deterministic_witness :
    (({ config := Config.defaultConfig, state := ⟨1, 2, 3⟩ } :
        GimbalController).config =
      ({ config := Config.defaultConfig, state := ⟨0, 0, 0⟩ } :
        GimbalController).config) ∧
    (({ config := Config.defaultConfig, state := ⟨1, 2, 3⟩ } :
        GimbalController).update InputState.empty =
      ({ config := Config.defaultConfig, state := ⟨0, 0, 0⟩ } :
        GimbalController).update InputState.empty ∧
    (∀ pitch roll lift i, Solver.scissorHeight pitch roll lift i =
      Solver.scissorHeight pitch roll lift i) ∧
    (∀ pitch roll lift angle, Solver.perimeterHeight pitch roll lift angle =
      Solver.perimeterHeight pitch roll lift angle)) :=
  ⟨rfl, C9_update_and_solver_deterministic _ _ InputState.empty rfl⟩

/-- Claim C10: `reset` sets the state to exactly
`pitch = 0, roll = 0, lift = 0` and leaves the configuration unchanged;
a subsequent `get_state` returns the zero state and `get_config` the
config from before the reset. -/
theorem C10_reset_zeroes_state_preserves_config (c : GimbalController) :
    (c.reset).get_state = GimbalState.default ∧
    (c.reset).get_state.pitch = 0 ∧
    (c.reset).get_state.roll = 0 ∧
    (c.reset).get_state.lift = 0 ∧
    (c.reset).get_config = c.get_config :=
  ⟨rfl, rfl, rfl, rfl, rfl⟩

end Gimbal

/-! ## Helper lemmas about the kinematic solver -/

namespace Solver

theorem toRadians_angle0 : toRadians (scissorAngleDeg 0) = 0 := by
  simp [toRadians, scissorAngleDeg]

theorem toRadians_angle1 : toRadians (scissorAngleDeg 1) = 2 * Real.pi / 3 := by
  simp only [toRadians, scissorAngleDeg]
  norm_num
  ring

theorem toRadians_angle2 : toRadians (scissorAngleDeg 2) = 4 * Real.pi / 3 := by
  simp only [toRadians, scissorAngleDeg]
  norm_num
  ring

theorem cos_angle1 : Real.cos (2 * Real.pi / 3) = -(1/2) := by
  rw [show 2 * Real.pi / 3 = Real.pi - Real.pi / 3 by ring,
    Real.cos_pi_sub, Real.cos_pi_div_three]

theorem sin_angle1 : Real.sin (2 * Real.pi / 3) = Real.sin (Real.pi / 3) := by
  rw [show 2 * Real.pi / 3 = Real.pi - Real.pi / 3 by ring, Real.sin_pi_sub]

theorem cos_angle2 : Real.cos (4 * Real.pi / 3) = -(1/2) := by
  rw [show 4 * Real.pi / 3 = 2 * Real.pi - 2 * Real.pi / 3 by ring,
    Real.cos_two_pi_sub, cos_angle1]

theorem sin_angle2 : Real.sin (4 * Real.pi / 3) = -Real.sin (Real.pi / 3) := by
  rw [show 4 * Real.pi / 3 = 2 * Real.pi - 2 * Real.pi / 3 by ring,
    Real.sin_two_pi_sub, sin_angle1]

theorem avgHeight_eq_nominal (pitch roll lift : ℝ) :
    avgHeight pitch roll lift = nominal_height lift := by
  unfold avgHeight scissorHeight pitchEffect rollEffect actuatorBaseX
    actuatorBaseY
  rw [toRadians_angle0, toRadians_angle1, toRadians_angle2, cos_angle1,
    sin_angle1, cos_angle2, sin_angle2, Real.cos_zero, Real.sin_zero]
  unfold scissorRadius platform_radius
  ring

theorem pitchEffect_eq (p y : ℝ) :
    pitchEffect p y = y * p * Real.pi / 360 := by
  unfold pitchEffect toRadians platform_radius
  ring

theorem rollEffect_eq (r x : ℝ) :
    rollEffect r x = x * r * Real.pi / 360 := by
  unfold rollEffect toRadians platform_radius
  ring

theorem abs_effect_le {p y b c : ℝ} (hy : |y| ≤ b) (hp : |p| ≤ c) :
    |y * p * Real.pi / 360| ≤ b * c * Real.pi / 360 := by
  have hb : (0:ℝ) ≤ b := (abs_nonneg y).trans hy
  have hc : (0:ℝ) ≤ c := (abs_nonneg p).trans hp
  rw [abs_div, abs_mul, abs_mul, abs_of_pos Real.pi_pos,
    show |(360:ℝ)| = 360 by norm_num]
  gcongr

theorem abs_sin_le (x : ℝ) : |Real.sin x| ≤ 1 :=
  abs_le.mpr ⟨Real.neg_one_le_sin x, Real.sin_le_one x⟩

theorem abs_cos_le (x : ℝ) : |Real.cos x| ≤ 1 :=
  abs_le.mpr ⟨Real.neg_one_le_cos x, Real.cos_le_one x⟩

theorem abs_actuatorBaseY_le (i : Fin 3) : |actuatorBaseY i| ≤ 75 := by
  unfold actuatorBaseY scissorRadius platform_radius
  rw [abs_mul, show |(100:ℝ) * 0.75| = 75 by norm_num]
  nlinarith [abs_sin_le (toRadians (scissorAngleDeg i)),
    abs_nonneg (Real.sin (toRadians (scissorAngleDeg i)))]

theorem abs_actuatorBaseX_le (i : Fin 3) : |actuatorBaseX i| ≤ 75 := by
  unfold actuatorBaseX scissorRadius platform_radius
  rw [abs_mul, show |(100:ℝ) * 0.75| = 75 by norm_num]
  nlinarith [abs_cos_le (toRadians (scissorAngleDeg i)),
    abs_nonneg (Real.cos (toRadians (scissorAngleDeg i)))]

theorem abs_perimeter_sin_le (angle : ℝ) :
    |perimeterRadius * Real.sin angle| ≤ 90 := by
  unfold perimeterRadius platform_radius
  rw [abs_mul, show |(100:ℝ) * 0.9| = 90 by norm_num]
  nlinarith [abs_sin_le angle, abs_nonneg (Real.sin angle)]

theorem abs_perimeter_cos_le (angle : ℝ) :
    |perimeterRadius * Real.cos angle| ≤ 90 := by
  unfold perimeterRadius platform_radius
  rw [abs_mul, show |(100:ℝ) * 0.9| = 90 by norm_num]
  nlinarith [abs_cos_le angle, abs_nonneg (Real.cos angle)]

theorem abs_nominal_le (lift : ℝ) :
    |nominal_height lift| ≤ 15 + |lift| := by
  unfold nominal_height
  calc |15 + lift| ≤ |(15:ℝ)| + |lift| := abs_add _ _
    _ = 15 + |lift| := by norm_num

theorem abs_scissorHeight_le {pitch roll mp mr : ℝ} (lift : ℝ) (i : Fin 3)
    (hp : |pitch| ≤ mp) (hr : |roll| ≤ mr) :
    |scissorHeight pitch roll lift i| ≤
      15 + |lift| + 75 * mp * Real.pi / 360 + 75 * mr * Real.pi / 360 := by
  have hpe : |pitchEffect pitch (actuatorBaseY i)| ≤
      75 * mp * Real.pi / 360 := by
    rw [pitchEffect_eq]
    exact abs_effect_le (abs_actuatorBaseY_le i) hp
  have hre : |rollEffect roll (actuatorBaseX i)| ≤
      75 * mr * Real.pi / 360 := by
    rw [rollEffect_eq]
    exact abs_effect_le (abs_actuatorBaseX_le i) hr
  have hN := abs_nominal_le lift
  unfold scissorHeight
  calc |nominal_height lift + pitchEffect pitch (actuatorBaseY i) +
        rollEffect roll (actuatorBaseX i)|
      ≤ |nominal_height lift + pitchEffect pitch (actuatorBaseY i)| +
        |rollEffect roll (actuatorBaseX i)| := abs_add _ _
    _ ≤ |nominal_height lift| + |pitchEffect pitch (actuatorBaseY i)| +
        |rollEffect roll (actuatorBaseX i)| := by
          linarith [abs_add (nominal_height lift)
            (pitchEffect pitch (actuatorBaseY i))]
    _ ≤ 15 + |lift| + 75 * mp * Real.pi / 360 + 75 * mr * Real.pi / 360 := by
          linarith

end Solver

/-! ## Claims about the kinematic solver and projector -/

namespace Solver

/-- Claim C6: with demand `(0,0,0)` every actuator in the 3-actuator
layout has extension height exactly `base_nominal = 15.0`
(hence certainly within `1e-9` of it). -/
theorem C6_zero_demand_all_heights_nominal (i : Fin 3) :
    scissorHeight 0 0 0 i = 15 ∧
    |scissorHeight 0 0 0 i - 15| ≤ 1/1000000000 := by
  have h : scissorHeight 0 0 0 i = 15 := by
    unfold scissorHeight nominal_height pitchEffect rollEffect
    simp [toRadians]
  exact ⟨h, by rw [h]; norm_num⟩

/-- Counterexample to claim C4 as stated: with demand
`(pitch, roll, lift) = (0, 1, 0)`, at actuator 0's angle the perimeter
height interpolated from the angular formula (reference height = average
of the actuator heights) is `15 + π/4`, while the discrete actuator
height is `15 + 5π/24`; they differ because the perimeter is sampled at
radius `0.9·R` but the actuators sit at radius `0.75·R`. -/
theorem C4_counterexample :
    perimeterHeight 0 1 0 (toRadians (scissorAngleDeg 0)) ≠
      scissorHeight 0 1 0 0 := by
  have h1 : perimeterHeight 0 1 0 (toRadians (scissorAngleDeg 0)) =
      15 + Real.pi / 4 := by
    unfold perimeterHeight
    rw [avgHeight_eq_nominal, toRadians_angle0, Real.sin_zero, Real.cos_zero]
    unfold nominal_height pitchEffect rollEffect perimeterRadius
      platform_radius toRadians
    ring
  have h2 : scissorHeight 0 1 0 0 = 15 + 5 * Real.pi / 24 := by
    unfold scissorHeight actuatorBaseX actuatorBaseY scissorRadius
    rw [toRadians_angle0, Real.sin_zero, Real.cos_zero]
    unfold nominal_height pitchEffect rollEffect platform_radius toRadians
    ring
  rw [h1, h2]
  intro h
  have hz : Real.pi = 0 := by linarith
  exact Real.pi_ne_zero hz

/-- Claim C4 (amended): the average of the three actuator heights equals
the nominal height, and at each actuator's angle the perimeter height's
deviation from that average is `6/5` times the actuator's extension
deviation from nominal (the ratio of the sampling radii
`0.9·R / 0.75·R`) — so the sampled perimeter agrees with the discrete
actuator solution only where the tilt deviation vanishes, not at every
actuator angle. -/
theorem C4_perimeter_deviation_scales_actuator (pitch roll lift : ℝ)
    (i : Fin 3) :
    avgHeight pitch roll lift = nominal_height lift ∧
    perimeterHeight pitch roll lift (toRadians (scissorAngleDeg i)) -
        avgHeight pitch roll lift =
      6/5 * (scissorHeight pitch roll lift i - nominal_height lift) := by
  refine ⟨avgHeight_eq_nominal pitch roll lift, ?_⟩
  unfold perimeterHeight scissorHeight pitchEffect rollEffect
    actuatorBaseX actuatorBaseY perimeterRadius scissorRadius
    platform_radius
  ring

/-- Claim C7: for demand with `|pitch| ≤ mp`, `|roll| ≤ mr` and any real
(finite) lift, every actuator height and perimeter-vertex height is
bounded by an explicit finite bound — the solver's arithmetic produces
no unbounded (infinite) value on in-range demand. -/
theorem C7_solver_outputs_bounded (pitch roll lift mp mr : ℝ)
    (hp : |pitch| ≤ mp) (hr : |roll| ≤ mr) :
    (∀ i, |scissorHeight pitch roll lift i| ≤
      15 + |lift| + 75 * mp * Real.pi / 360 + 75 * mr * Real.pi / 360) ∧
    (∀ angle, |perimeterHeight pitch roll lift angle| ≤
      15 + |lift| + 165 * mp * Real.pi / 360 + 165 * mr * Real.pi / 360) := by
  refine ⟨fun i => abs_scissorHeight_le lift i hp hr, fun angle => ?_⟩
  have havg : |avgHeight pitch roll lift| ≤ 15 + |lift| +
      75 * mp * Real.pi / 360 + 75 * mr * Real.pi / 360 := by
    rw [avgHeight_eq_nominal]
    have := abs_nominal_le lift
    have hmp : (0:ℝ) ≤ mp := (abs_nonneg pitch).trans hp
    have hmr : (0:ℝ) ≤ mr := (abs_nonneg roll).trans hr
    nlinarith [Real.pi_pos.le]
  have hpe : |pitchEffect pitch (perimeterRadius * Real.sin angle)| ≤
      90 * mp * Real.pi / 360 := by
    rw [pitchEffect_eq]
    exact abs_effect_le (abs_perimeter_sin_le angle) hp
  have hre : |rollEffect roll (perimeterRadius * Real.cos angle)| ≤
      90 * mr * Real.pi / 360 := by
    rw [rollEffect_eq]
    exact abs_effect_le (abs_perimeter_cos_le angle) hr
  unfold perimeterHeight
  calc |avgHeight pitch roll lift +
        pitchEffect pitch (perimeterRadius * Real.sin angle) +
        rollEffect roll (perimeterRadius * Real.cos angle)|
      ≤ |avgHeight pitch roll lift +
          pitchEffect pitch (perimeterRadius * Real.sin angle)| +
        |rollEffect roll (perimeterRadius * Real.cos angle)| := abs_add _ _
    _ ≤ |avgHeight pitch roll lift| +
        |pitchEffect pitch (perimeterRadius * Real.sin angle)| +
        |rollEffect roll (perimeterRadius * Real.cos angle)| := by
          linarith [abs_add (avgHeight pitch roll lift)
            (pitchEffect pitch (perimeterRadius * Real.sin angle))]
    _ ≤ 15 + |lift| + 165 * mp * Real.pi / 360 +
        165 * mr * Real.pi / 360 := by linarith

/-- Witness for C7 at the zero demand with zero bounds. -/
theorem C7_solver_outputs_bounded_witness :
    |(0:ℝ)| ≤ 0 ∧
    ((∀ i, |scissorHeight 0 0 0 i| ≤
      15 + |(0:ℝ)| + 75 * 0 * Real.pi / 360 + 75 * 0 * Real.pi / 360) ∧
    (∀ angle, |perimeterHeight 0 0 0 angle| ≤
      15 + |(0:ℝ)| + 165 * 0 * Real.pi / 360 + 165 * 0 * Real.pi / 360)) :=
  ⟨by simp, C7_solver_outputs_bounded 0 0 0 0 0 (by simp) (by simp)⟩

/-- Counterexample to claim C2 as stated: the projector's horizontal
scale is the literal `0.866`, which is not exactly `cos 30° = √3/2`;
at the point `(1, 0, 0)` the produced `screenX` differs from
`(x - z)·cos 30°`. -/
theorem C2_counterexample :
    (to_isometric 1 0 0).1 ≠ ((1:ℝ) - 0) * Real.cos (Real.pi / 6) := by
  unfold to_isometric
  rw [Real.cos_pi_div_six]
  norm_num
  intro h
  have h3 : Real.sqrt 3 = 1.732 := by linarith
  have hsq : (Real.sqrt 3) ^ 2 = 3 := Real.sq_sqrt (by norm_num)
  rw [h3] at hsq
  norm_num at hsq

/-- Claim C2 (amended): the projector returns exactly
`screenX = (x - z)·0.866` (the code's three-decimal approximation of
cos 30°) and `screenY = (x + z)·sin 30° + height` (the code's `0.5` is
exactly `sin 30°`); `project(0,0,0) = (0,0)`; and for `x = z` (both equal
to the same value `x`) the `screenY` of `project(x,0,0)` and of
`project(0,0,x)` agree in magnitude. -/
theorem C2_projector_formula (x y z : ℝ) :
    to_isometric x y z =
      ((x - z) * 0.866, (x + z) * Real.sin (Real.pi / 6) + y) ∧
    to_isometric 0 0 0 = (0, 0) ∧
    |(to_isometric x 0 0).2| = |(to_isometric 0 0 x).2| := by
  refine ⟨?_, ?_, ?_⟩
  · unfold to_isometric
    rw [Real.sin_pi_div_six]
    norm_num
  · unfold to_isometric
    norm_num
  · unfold to_isometric
    norm_num

end Solver
